import Mathlib

/-!
Verification development for the broid integrations repository.

The embedding covers the Slack Parser (src/broid-slack/src/core/Parser.ts)
and the Kik Adapter (src/broid-kik/src/core/Adapter.ts). JavaScript
runtime behaviour that the source relies on (truthiness, the value of
a || b, Ramda isEmpty, template-literal rendering of undefined) is made
explicit through small helper functions. Effects that the source obtains
from its environment (Date.now, uuid.v4, the network fetch performed by
fileInfo) are passed in as an explicit environment record, so every
function of the embedding is a pure function of its input and that
environment.
-/

namespace Broid

/-- emptiness of a string, computed on its character list so that proofs
can evaluate it. -/
def strIsEmpty (s : String) : Bool := s.data.isEmpty

/-- prefix test on strings, computed on their character lists. -/
def strStartsWith (s pre : String) : Bool := pre.data.isPrefixOf s.data

/-- suffix test on strings, computed on their character lists. -/
def strEndsWith (s post : String) : Bool := post.data.isSuffixOf s.data

/-- number of characters of a string. -/
def strLength (s : String) : Nat := s.data.length

/-- the string without its first n characters. -/
def strDrop (s : String) (n : Nat) : String := String.mk (s.data.drop n)

/-- the first n characters of a string. -/
def strTake (s : String) (n : Nat) : String := String.mk (s.data.take n)

/-- the part of a string before its first dot; the whole string when it
has no dot. This is the head of the JavaScript split on a dot. -/
def beforeFirstDot (s : String) : String :=
  String.mk (s.data.takeWhile fun c => c ≠ '.')

/-- conversion of a digit string to a natural number, none otherwise. -/
def strToNatOpt (s : String) : Option Nat :=
  if s.data.all Char.isDigit && !s.data.isEmpty then
    some (s.data.foldl (fun n c => n * 10 + (c.toNat - 48)) 0)
  else none

/-- JavaScript truthiness of a possibly-undefined string: undefined (none)
and the empty string are falsy, every other string is truthy. -/
def strTruthy : Option String → Bool
  | none => false
  | some s => !strIsEmpty s

/-- JavaScript truthiness of a possibly-undefined boolean. -/
def boolTruthy : Option Bool → Bool
  | none => false
  | some b => b

/-- Value of the JavaScript expression a || b where both sides are
possibly-undefined strings: a when a is truthy, otherwise b. -/
def jsOrOpt (a b : Option String) : Option String :=
  if strTruthy a then a else b

/-- Value of the JavaScript expression a || b where the right side is a
plain string: a when a is truthy, otherwise b. -/
def jsOrStr (a : Option String) (b : String) : String :=
  if strTruthy a then a.getD "" else b

/-- Ramda isEmpty applied to a possibly-undefined string: undefined is not
empty, a string is empty exactly when it has no characters. -/
def isEmptyOptStr : Option String → Bool
  | none => false
  | some s => strIsEmpty s

/-- Rendering of a possibly-undefined string inside a JavaScript template
literal: undefined renders as the text undefined. -/
def jsTemplate : Option String → String
  | none => "undefined"
  | some s => s

namespace Slack

/-- Modelled from the spec: isUrl from the @broid/utils package, which is
not under src/. It recognises http and https links as URLs. -/
def isUrl (s : String) : Bool :=
  strStartsWith s "http://" || strStartsWith s "https://"

/-- user field of a normalized Slack message, as read through
R.path in Parser.parse. -/
structure SlackUser where
  id : Option String
  name : Option String
  is_bot : Option Bool
deriving DecidableEq

/-- channel field of a normalized Slack message. -/
structure SlackChannel where
  id : Option String
  user : Option String
  is_im : Option Bool
deriving DecidableEq

/-- initial_comment field of a Slack file attachment: either a plain
object with a comment field or an array whose first element carries the
comment (Parser.parseFile reads initial_comment[0].comment in that case). -/
inductive InitialComment where
  | single (comment : Option String)
  | array (firstComment : Option String)
deriving DecidableEq

/-- file attachment of a normalized Slack message, with the fields that
Parser.parseFile dereferences unconditionally (mimetype, initial_comment)
required and the rest optional. -/
structure SlackFile where
  mimetype : String
  name : Option String
  permalink_public : Option String
  thumb_1024 : Option String
  initial_comment : InitialComment
deriving DecidableEq

/-- normalized Slack message handed to Parser.parse. Fields that
cleanNulls may have removed, or that the platform may omit, are optional;
none stands for both null and undefined, which the code only ever
distinguishes through truthiness and Ramda isEmpty. -/
structure IMessage where
  text : Option String
  content : Option String
  user : Option SlackUser
  channel : Option SlackChannel
  file : Option SlackFile
  subtype : Option String
  eventID : Option String
  thread_ts : Option String
  ts : Option String
  callback_id : Option String
  response_url : Option String
deriving DecidableEq

/-- emptiness of the message record after cleanNulls: the cleaned object
is Ramda-empty exactly when every field was null or absent. -/
def IMessage.isEmptyMsg (m : IMessage) : Bool :=
  m.text.isNone && m.content.isNone && m.user.isNone && m.channel.isNone &&
  m.file.isNone && m.subtype.isNone && m.eventID.isNone && m.thread_ts.isNone &&
  m.ts.isNone && m.callback_id.isNone && m.response_url.isNone

/-- generator object of an activity stream. -/
structure ASGenerator where
  id : String
  name : String
  type : String
deriving DecidableEq

/-- actor object of an activity stream. -/
structure ASActor where
  id : Option String
  name : Option String
  type : String
deriving DecidableEq

/-- target object of an activity stream. -/
structure ASTarget where
  id : Option String
  name : Option String
  type : String
deriving DecidableEq

/-- context object attached to the activity object for interactive
message callbacks. -/
structure ASContext where
  content : String
  name : String
  type : String
deriving DecidableEq

/-- object part of an activity stream; fields that a given branch of
Parser.parse does not assign are none. -/
structure ASObject where
  id : Option String
  type : Option String
  content : Option String
  mediaType : Option String
  name : Option String
  url : Option String
  preview : Option String
  context : Option ASContext
deriving DecidableEq

/-- media description returned by Parser.parseFile (IASMedia). preview is
assigned only when thumb_1024 is truthy, hence optional. -/
structure ASMedia where
  mediaType : String
  name : Option String
  type : String
  url : Option String
  preview : Option String
  content : String
deriving DecidableEq

/-- activity stream produced by the Slack Parser. published is an
optional natural number: none models the NaN that ts2Timestamp yields on
a non-numeric timestamp. -/
structure ActivityStream where
  atContext : String
  generator : ASGenerator
  published : Option Nat
  type : String
  actor : Option ASActor
  target : Option ASTarget
  object : Option ASObject
deriving DecidableEq

/-- environment a run of Parser.parse executes in: the wall clock read by
Date.now (already divided to seconds), the identifier uuid.v4 would
produce, and the mimetype the fileInfo network fetch reports for a URL. -/
structure ParseEnv where
  nowSeconds : Nat
  freshId : String
  fileInfoMime : String → String

/-- state of a Slack Parser instance: the fields its constructor stores. -/
structure Parser where
  serviceID : String
  generatorName : String
  logLevel : String
deriving DecidableEq

/-- Parser constructor: stores serviceID and stores serviceName as the
generator name. -/
def Parser.construct (serviceName serviceID logLevel : String) : Parser :=
  { serviceID := serviceID, generatorName := serviceName, logLevel := logLevel }

/-- Number applied to the strings that reach ts2Timestamp: the empty
string converts to 0, a digit string to its value, anything else to NaN
(modelled as none). -/
def jsNumberNat (s : String) : Option Nat :=
  if strIsEmpty s then some 0 else strToNatOpt s

/-- largest time value in milliseconds a JavaScript Date can represent;
beyond it the Date is invalid and getTime yields NaN. -/
def maxDateMillis : Nat := 8640000000000000

/-- Parser.ts2Timestamp: Number of the part of ts before the first dot,
round-tripped through a JavaScript Date (the identity on representable
values, NaN beyond the Date range or on non-numeric input). -/
def Parser.ts2Timestamp (ts : String) : Option Nat :=
  match jsNumberNat (beforeFirstDot ts) with
  | none => none
  | some n => if n * 1000 ≤ maxDateMillis then some n else none

/-- Parser.createActivityStream: the envelope with the generator of this
service instance and a published timestamp taken from thread_ts or ts
when one is truthy and from the wall clock otherwise. -/
def Parser.createActivityStream (p : Parser) (env : ParseEnv) (m : IMessage) : ActivityStream :=
  let ts := jsOrOpt m.thread_ts m.ts
  { atContext := "https://www.w3.org/ns/activitystreams"
  , generator := { id := p.serviceID, name := p.generatorName, type := "Service" }
  , published := if strTruthy ts then Parser.ts2Timestamp (ts.getD "") else some env.nowSeconds
  , type := "Create"
  , actor := none
  , target := none
  , object := none }

/-- Parser.parseFile: a media record for an attachment whose mimetype
starts with image or video, null otherwise. -/
def Parser.parseFile (f : SlackFile) : Option ASMedia :=
  if strStartsWith f.mimetype "image" || strStartsWith f.mimetype "video" then
    some
      { mediaType := f.mimetype
      , name := f.name
      , type := if strStartsWith f.mimetype "video" then "Video" else "Image"
      , url := f.permalink_public
      , preview := if strTruthy f.thumb_1024 then f.thumb_1024 else none
      , content :=
          match f.initial_comment with
          | InitialComment.array c => jsOrStr c ""
          | InitialComment.single c => jsOrStr c "" }
  else none

/-- the message text with its first and last characters removed, as
computed by text.substr(1) followed by substring(0, length - 1). -/
def stripEnds (s : String) : String :=
  let t := strDrop s 1
  strTake t (strLength t - 1)

/-- object identifier normalized.thread_ts || normalized.ts ||
createIdentifier() used by the file-attachment and Note branches. -/
def msgObjectId (m : IMessage) (env : ParseEnv) : String :=
  jsOrStr (jsOrOpt m.thread_ts m.ts) env.freshId

/-- actor assigned by Parser.parse from the user field. -/
def Parser.actorOf (m : IMessage) : ASActor :=
  { id := m.user.bind fun u => u.id
  , name := m.user.bind fun u => u.name
  , type := if boolTruthy (m.user.bind fun u => u.is_bot) then "Application" else "Person" }

/-- target assigned by Parser.parse from the channel field. -/
def Parser.targetOf (m : IMessage) : ASTarget :=
  { id := m.channel.bind fun c => c.id
  , name := jsOrOpt (m.channel.bind fun c => c.id) (m.channel.bind fun c => c.user)
  , type := if boolTruthy (m.channel.bind fun c => c.is_im) then "Person" else "Group" }

/-- object produced by the first then-step of Parser.parse: the URL
branch when the stripped text is a URL, otherwise the file-attachment
branch, otherwise no object yet. -/
def Parser.mediaObject (env : ParseEnv) (m : IMessage) (text : String) : Option ASObject :=
  let url := stripEnds text
  if isUrl url then
    let mediaType := env.fileInfoMime url
    let fileType : Option String :=
      if strStartsWith mediaType "image/" then some "Image"
      else if strStartsWith mediaType "video/" then some "Video"
      else none
    some
      { id := some (jsOrStr m.eventID env.freshId)
      , type := fileType
      , content := none
      , mediaType := some mediaType
      , name := none
      , url := some url
      , preview := none
      , context := none }
  else
    match m.file with
    | some f =>
      match Parser.parseFile f with
      | some a =>
        some
          { id := some (msgObjectId m env)
          , type := some a.type
          , content := some a.content
          , mediaType := some a.mediaType
          , name := a.name
          , url := a.url
          , preview := if strTruthy a.preview then a.preview else none
          , context := none }
      | none => none
    | none => none

/-- Note object built by the second then-step of Parser.parse when no
object was produced earlier and normalized.content is not Ramda-empty. -/
def Parser.noteObject (env : ParseEnv) (m : IMessage) (text : String) : ASObject :=
  { id := some (msgObjectId m env)
  , type := some "Note"
  , content := some text
  , mediaType := none
  , name := none
  , url := none
  , preview := none
  , context := none }

/-- context object attached for interactive_message callbacks: the
template literal of callback_id, a hash sign, and response_url. -/
def Parser.callbackContext (m : IMessage) : ASContext :=
  { content := jsTemplate m.callback_id ++ "#" ++ jsTemplate m.response_url
  , name := "interactive_message_callback"
  , type := "Object" }

/-- object after the Note fallback of the second then-step: the media
object when one was produced, otherwise a Note exactly when
normalized.content is not Ramda-empty. -/
def Parser.preObject (env : ParseEnv) (m : IMessage) (text : String) : Option ASObject :=
  let o1 := Parser.mediaObject env m text
  if o1.isNone && !isEmptyOptStr m.content then some (Parser.noteObject env m text)
  else o1

/-- object of the final activity stream: the staged object, with the
interactive_message context attached when an object exists and the
subtype matches. -/
def Parser.finalObject (env : ParseEnv) (m : IMessage) (text : String) : Option ASObject :=
  let o2 := Parser.preObject env m text
  if o2.isSome && (m.subtype = some "interactive_message" : Bool) then
    o2.map fun o => { o with context := some (Parser.callbackContext m) }
  else o2

/-- Parser.parse: null on a null event, a cleaned-empty event, or an
event without truthy text; otherwise the envelope from
createActivityStream with actor, target and the staged object. -/
def Parser.parse (p : Parser) (env : ParseEnv) (event : Option IMessage) : Option ActivityStream :=
  match event with
  | none => none
  | some m =>
    if m.isEmptyMsg then none
    else if !strTruthy m.text then none
    else
      some
        { p.createActivityStream env m with
          actor := some (Parser.actorOf m)
        , target := some (Parser.targetOf m)
        , object := Parser.finalObject env m (m.text.getD "") }

/-- JSON-like value of the loosely typed events handed to
Parser.validate; jnull stands for both null and undefined, which the
code only distinguishes through truthiness. -/
inductive JValue where
  | jnull
  | jbool (b : Bool)
  | jnum (n : Int)
  | jstr (s : String)
  | jarr (elems : List JValue)
  | jobj (fields : List (String × JValue))

mutual

/-- Modelled from the spec: cleanNulls from the @broid/utils package,
which is not under src/. It removes null fields from objects and null
entries from arrays, recursively. -/
def cleanNulls : JValue → JValue
  | JValue.jobj fs => JValue.jobj (cleanFields fs)
  | JValue.jarr xs => JValue.jarr (cleanElems xs)
  | v => v

/-- field-list part of cleanNulls. -/
def cleanFields : List (String × JValue) → List (String × JValue)
  | [] => []
  | (k, v) :: rest =>
    match v with
    | JValue.jnull => cleanFields rest
    | w => (k, cleanNulls w) :: cleanFields rest

/-- element-list part of cleanNulls. -/
def cleanElems : List JValue → List JValue
  | [] => []
  | v :: rest =>
    match v with
    | JValue.jnull => cleanElems rest
    | w => cleanNulls w :: cleanElems rest

end

/-- JavaScript truthiness of a JSON-like value. -/
def jsTruthyJ : JValue → Bool
  | JValue.jnull => false
  | JValue.jbool b => b
  | JValue.jnum n => n != 0
  | JValue.jstr s => !strIsEmpty s
  | JValue.jarr _ => true
  | JValue.jobj _ => true

/-- Ramda isEmpty on a JSON-like value: an object or array with no
entries and the empty string are empty, everything else is not. -/
def isEmptyJ : JValue → Bool
  | JValue.jobj fs => fs.isEmpty
  | JValue.jarr xs => xs.isEmpty
  | JValue.jstr s => strIsEmpty s
  | _ => false

/-- JavaScript property access on a JSON-like value; the undefined that
results from a missing field or a non-object base is modelled as jnull. -/
def getField (v : JValue) (k : String) : JValue :=
  match v with
  | JValue.jobj fs =>
    match fs.find? (fun p => p.1 == k) with
    | some p => p.2
    | none => JValue.jnull
  | _ => JValue.jnull

/-- Parser.validate: cleans nulls, resolves to null on a falsy or empty
result or on a falsy type field, then runs the activity schema validator
(a parameter here, standing for the @broid/schemas checker, which is not
under src/) and resolves to the cleaned event on success and null on
failure. -/
def Parser.validate (schemaOk : JValue → Bool) (event : JValue) : Option JValue :=
  let parsed := cleanNulls event
  if !jsTruthyJ parsed || isEmptyJ parsed then none
  else if !jsTruthyJ (getField parsed "type") then none
  else if schemaOk parsed then some parsed else none

end Slack

namespace Kik

/-- one observable step of the middleware Adapter.listen installs: the
three parser calls and the emission to the observer. -/
inductive ListenStep (α β γ δ : Type) where
  | normalizeCall (raw : α) (result : β)
  | parseCall (input : β) (result : γ)
  | validateCall (input : γ) (result : Option δ)
  | emit (event : δ)
deriving DecidableEq

/-- trace of the middleware Adapter.listen runs for one incoming message:
it normalizes, parses, validates, and emits the validated event to the
observer only when validate did not resolve to null. The Kik Parser
functions are parameters, so the trace shape holds for the actual parser
whatever it computes. -/
def listenTrace {α β γ δ υ : Type} (normalize : α → υ → β) (parse : β → γ)
    (validate : γ → Option δ) (incoming : α) (userInfo : υ) :
    List (ListenStep α β γ δ) :=
  let n := normalize incoming userInfo
  let pr := parse n
  let v := validate pr
  [ListenStep.normalizeCall incoming n, ListenStep.parseCall n pr,
   ListenStep.validateCall pr v] ++
    (match v with
     | some d => [ListenStep.emit d]
     | none => [])

/-- options object handed to the Adapter constructor; http carries no
payload the model needs, only its presence matters. -/
structure IAdapterOptions where
  serviceID : Option String
  logLevel : Option String
  token : Option String
  username : Option String
  webhookURL : String
  http : Option Unit
deriving DecidableEq

/-- webhookURL.replace of an optional trailing slash with a slash: the
URL always ends with exactly the slash it had or gains one. -/
def ensureTrailingSlash (s : String) : String :=
  if strEndsWith s "/" then s else s ++ "/"

/-- state of a Kik Adapter instance. The counters record the effects
connect performs on the express router, the webhook server and the
platform SDK, so re-execution is observable. -/
structure Adapter where
  serviceID : String
  logLevel : String
  token : Option String
  username : String
  webhookURL : String
  hasWebhookServer : Bool
  connected : Bool
  hasSession : Bool
  sessionsCreated : Nat
  routerUses : Nat
  webhookListens : Nat
  webhookCloses : Nat
  routerId : Nat
deriving DecidableEq

/-- Adapter constructor: applies the || null defaulting to the options,
throws Token should exist. when the stored token is the empty string,
normalises the webhook URL and creates a webhook server exactly when
http options are present. freshId stands for the uuid.v4 fallback and
routerId identifies the express router the constructor creates. -/
def Adapter.construct (freshId : String) (routerId : Nat) (obj : IAdapterOptions) :
    Except String Adapter :=
  let serviceID := jsOrStr obj.serviceID freshId
  let logLevel := jsOrStr obj.logLevel "info"
  let token := if strTruthy obj.token then obj.token else none
  let username := jsOrStr obj.username "SMS"
  if token = some "" then Except.error "Token should exist."
  else Except.ok
    { serviceID := serviceID
    , logLevel := logLevel
    , token := token
    , username := username
    , webhookURL := ensureTrailingSlash obj.webhookURL
    , hasWebhookServer := obj.http.isSome
    , connected := false
    , hasSession := false
    , sessionsCreated := 0
    , routerUses := 0
    , webhookListens := 0
    , webhookCloses := 0
    , routerId := routerId }

/-- Adapter.getRouter: null when a webhook server exists, the internal
express router otherwise. -/
def Adapter.getRouter (a : Adapter) : Option Nat :=
  if a.hasWebhookServer then none else some a.routerId

/-- result object of Adapter.connect. -/
structure ConnectInfo where
  type : String
  serviceID : String
deriving DecidableEq

/-- Adapter.connect: returns connected immediately when the flag is
already set; throws when a credential is falsy; otherwise creates a new
KikBot session, mounts it on the router, starts the webhook server when
one exists, and sets the connected flag. -/
def Adapter.connect (a : Adapter) : Adapter × Except String ConnectInfo :=
  if a.connected then
    (a, Except.ok { type := "connected", serviceID := a.serviceID })
  else if !strTruthy a.token || strIsEmpty a.username || strIsEmpty a.webhookURL then
    (a, Except.error "Credentials should exist.")
  else
    ({ a with
        hasSession := true
      , sessionsCreated := a.sessionsCreated + 1
      , routerUses := a.routerUses + 1
      , webhookListens := a.webhookListens + (if a.hasWebhookServer then 1 else 0)
      , connected := true },
     Except.ok { type := "connected", serviceID := a.serviceID })

/-- Adapter.disconnect as written in the source: it assigns true, not
false, to the connected flag, and closes the webhook server when one
exists. -/
def Adapter.disconnect (a : Adapter) : Adapter :=
  { a with
      connected := true
    , webhookCloses := a.webhookCloses + (if a.hasWebhookServer then 1 else 0) }

/-- one public lifecycle call on the adapter. -/
inductive AdapterOp where
  | connectOp
  | disconnectOp
deriving DecidableEq

/-- state reached by one lifecycle call. -/
def Adapter.runOp : AdapterOp → Adapter → Adapter
  | AdapterOp.connectOp, a => (Adapter.connect a).1
  | AdapterOp.disconnectOp, a => Adapter.disconnect a

/-- state reached by a sequence of lifecycle calls. -/
def Adapter.runOps (ops : List AdapterOp) (a : Adapter) : Adapter :=
  match ops with
  | [] => a
  | op :: rest => Adapter.runOps rest (Adapter.runOp op a)

/-- to field of the data handed to Adapter.send. -/
structure SendTo where
  id : Option String
  name : Option String
deriving DecidableEq

/-- one attachment of the object handed to Adapter.send. -/
structure SendAttachment where
  type : Option String
  url : Option String
  name : Option String
deriving DecidableEq

/-- object field of the data handed to Adapter.send. -/
structure SendObject where
  type : Option String
  content : Option String
  url : Option String
  name : Option String
  preview : Option String
  attachment : Option (List SendAttachment)
deriving DecidableEq

/-- data handed to Adapter.send, read through R.path. -/
structure SendData where
  «to» : Option SendTo
  object : Option SendObject
deriving DecidableEq

/-- platform message Adapter.send builds through the KikBot Message
constructors and setters before handing it to session.send. -/
structure KikMessage where
  kind : String
  url : Option String
  content : Option String
  attributionName : Option String
  attributionIcon : Option String
  responseKeyboard : Option (List String)
deriving DecidableEq

/-- one observable action of Adapter.send: the schema validation and the
platform SDK send call. -/
inductive SendAction where
  | schemaCheck
  | sdkSend (message : KikMessage) (toID : Option String)
deriving DecidableEq

/-- result object Adapter.send resolves with. -/
structure SendResult where
  type : String
  serviceID : String
deriving DecidableEq

/-- Adapter.send: validates against the send schema first, then builds
the keyboard buttons and the platform message for a Note, Image or Video
object, sends it through the session and resolves with sent; any other
object type rejects with Only Note, Image, and Video are supported.
before any SDK send call. The schema checker is a parameter standing for
the @broid/schemas send validator, which is not under src/; the session
send itself is modelled as succeeding. -/
def Adapter.send (a : Adapter) (schemaOk : SendData → Bool) (data : SendData) :
    List SendAction × Except String SendResult :=
  if !schemaOk data then
    ([SendAction.schemaCheck], Except.error "schema validation failed")
  else
    let toID := jsOrOpt (data.«to».bind fun t => t.id) (data.«to».bind fun t => t.name)
    let dataType := data.object.bind fun o => o.type
    let attachments := (data.object.bind fun o => o.attachment).getD []
    let buttonAtts := attachments.filter fun at0 => at0.type = some "Button"
    let buttons := (buttonAtts.map fun b => jsOrOpt b.url b.name).filterMap id
    let message : Option KikMessage :=
      if dataType = some "Image" || dataType = some "Video" then
        let murl := data.object.bind fun o => o.url
        let mname := jsOrStr (data.object.bind fun o => o.name) ""
        let mpreview := jsOrOpt (data.object.bind fun o => o.preview) murl
        let base : KikMessage :=
          if dataType = some "Image" then
            { kind := "picture", url := murl, content := none
            , attributionName := none, attributionIcon := none, responseKeyboard := none }
          else
            { kind := "video", url := murl, content := none
            , attributionName := none, attributionIcon := none, responseKeyboard := none }
        let withName :=
          if !strIsEmpty mname then { base with attributionName := some mname } else base
        let withIcon :=
          if strTruthy mpreview then { withName with attributionIcon := mpreview } else withName
        some withIcon
      else if dataType = some "Note" then
        some
          { kind := "text", url := none
          , content := data.object.bind fun o => o.content
          , attributionName := none, attributionIcon := none, responseKeyboard := none }
      else none
    match message with
    | some msg =>
      let msg2 := if !buttons.isEmpty then { msg with responseKeyboard := some buttons } else msg
      ([SendAction.schemaCheck, SendAction.sdkSend msg2 toID],
       Except.ok { type := "sent", serviceID := a.serviceID })
    | none =>
      ([SendAction.schemaCheck], Except.error "Only Note, Image, and Video are supported.")

end Kik

namespace Slack

/-- successful runs of Parser.parse return exactly the staged record:
the createActivityStream envelope with actor, target and object filled
in. -/
theorem parse_some_eq {p : Parser} {env : ParseEnv} {m : IMessage} {as : ActivityStream}
    (h : Parser.parse p env (some m) = some as) :
    as = { p.createActivityStream env m with
           actor := some (Parser.actorOf m)
         , target := some (Parser.targetOf m)
         , object := Parser.finalObject env m (m.text.getD "") } := by
  simp only [Parser.parse] at h
  split at h
  · exact absurd h (by simp)
  · split at h
    · exact absurd h (by simp)
    · injection h with h2
      exact h2.symm

/-- service used by the concrete sample runs. -/
def sampleParser : Parser := Parser.construct "slack" "sid-1" "info"

/-- sample environment: wall clock at 100 seconds. -/
def sampleEnvA : ParseEnv :=
  { nowSeconds := 100, freshId := "uuid-a", fileInfoMime := fun _ => "" }

/-- sample environment: wall clock at 200 seconds, same identifier and
fetch results as sampleEnvA. -/
def sampleEnvB : ParseEnv :=
  { nowSeconds := 200, freshId := "uuid-a", fileInfoMime := fun _ => "" }

/-- sample normalized message carrying a platform timestamp. -/
def sampleMsgTs : IMessage :=
  { text := some "hello", content := none, user := none, channel := none, file := none
  , subtype := none, eventID := none, thread_ts := none, ts := some "1500.25"
  , callback_id := none, response_url := none }

/-- activity stream Parser.parse produces for sampleMsgTs. -/
def sampleStreamTs : ActivityStream :=
  { atContext := "https://www.w3.org/ns/activitystreams"
  , generator := { id := "sid-1", name := "slack", type := "Service" }
  , published := some 1500
  , type := "Create"
  , actor := some { id := none, name := none, type := "Person" }
  , target := some { id := none, name := none, type := "Group" }
  , object := some
      { id := some "1500.25", type := some "Note", content := some "hello"
      , mediaType := none, name := none, url := none, preview := none, context := none } }

/-- Claim C1: every activity stream Parser.parse produces carries the
generator of the service instance the Parser was constructed with, and a
published timestamp equal to the integer-seconds part of thread_ts or ts
when one is present and to the wall clock in seconds otherwise. -/
theorem claimC1 (serviceName serviceID logLevel : String) (env : ParseEnv)
    (m : IMessage) (as : ActivityStream)
    (h : Parser.parse (Parser.construct serviceName serviceID logLevel) env (some m) = some as) :
    as.generator = { id := serviceID, name := serviceName, type := "Service" } ∧
    as.published =
      (if strTruthy (jsOrOpt m.thread_ts m.ts) then
        Parser.ts2Timestamp ((jsOrOpt m.thread_ts m.ts).getD "")
      else some env.nowSeconds) := by
  obtain rfl := parse_some_eq h
  exact ⟨rfl, rfl⟩

/-- Claim C1 instantiated on sampleMsgTs. -/
theorem claimC1_witness :
    sampleStreamTs.generator = { id := "sid-1", name := "slack", type := "Service" } ∧
    sampleStreamTs.published =
      (if strTruthy (jsOrOpt sampleMsgTs.thread_ts sampleMsgTs.ts) then
        Parser.ts2Timestamp ((jsOrOpt sampleMsgTs.thread_ts sampleMsgTs.ts).getD "")
      else some sampleEnvA.nowSeconds) :=
  claimC1 "slack" "sid-1" "info" sampleEnvA sampleMsgTs sampleStreamTs (by decide)

/-- sample normalized message without any platform timestamp. -/
def sampleMsgNoTs : IMessage :=
  { text := some "hello", content := none, user := none, channel := none, file := none
  , subtype := none, eventID := none, thread_ts := none, ts := none
  , callback_id := none, response_url := none }

/-- Claim C4 as stated fails on the code: two runs of Parser.parse on the
very same normalized input, one with the wall clock at 100 seconds and
one with it at 200 seconds, produce different activity streams, because
the published fallback reads the clock. -/
theorem claimC4_counterexample :
    Parser.parse sampleParser sampleEnvA (some sampleMsgNoTs) ≠
      Parser.parse sampleParser sampleEnvB (some sampleMsgNoTs) := by decide

/-- Claim C4 amended: Parser.parse is deterministic once its ambient
environment (wall clock, generated identifier, fetched file metadata) is
fixed, and it is deterministic across environments for every normalized
message whose bracket-stripped text is not a URL and which carries a
truthy thread_ts or ts: there any two runs produce the same activity
stream. -/
theorem claimC4 (p : Parser) (env1 env2 : ParseEnv) (m : IMessage)
    (hurl : isUrl (stripEnds (m.text.getD "")) = false)
    (hts : strTruthy (jsOrOpt m.thread_ts m.ts) = true) :
    Parser.parse p env1 (some m) = Parser.parse p env2 (some m) := by
  have hCAS : p.createActivityStream env1 m = p.createActivityStream env2 m := by
    simp [Parser.createActivityStream, hts]
  have hid : msgObjectId m env1 = msgObjectId m env2 := by
    simp [msgObjectId, jsOrStr, hts]
  have hMO : Parser.mediaObject env1 m (m.text.getD "") =
      Parser.mediaObject env2 m (m.text.getD "") := by
    simp only [Parser.mediaObject, hurl]
    cases m.file with
    | none => rfl
    | some f =>
      cases hpf : Parser.parseFile f with
      | none => simp [hpf]
      | some a => simp [hpf, hid]
  have hFO : Parser.finalObject env1 m (m.text.getD "") =
      Parser.finalObject env2 m (m.text.getD "") := by
    simp only [Parser.finalObject, Parser.preObject, hMO, Parser.noteObject, hid]
  simp [Parser.parse, hCAS, hFO]

/-- Claim C4 amended, instantiated on sampleMsgTs across the two sample
environments. -/
theorem claimC4_witness :
    isUrl (stripEnds (sampleMsgTs.text.getD "")) = false ∧
    strTruthy (jsOrOpt sampleMsgTs.thread_ts sampleMsgTs.ts) = true ∧
    Parser.parse sampleParser sampleEnvA (some sampleMsgTs) =
      Parser.parse sampleParser sampleEnvB (some sampleMsgTs) :=
  ⟨by decide, by decide,
    claimC4 sampleParser sampleEnvA sampleEnvB sampleMsgTs (by decide) (by decide)⟩

/-- every object the first then-step produces has no context field. -/
theorem mediaObject_context_none {env : ParseEnv} {m : IMessage} {text : String} {o : ASObject}
    (hm : Parser.mediaObject env m text = some o) : o.context = none := by
  simp only [Parser.mediaObject] at hm
  split at hm
  · injection hm with hm2
    rw [← hm2]
  · split at hm
    · split at hm
      · injection hm with hm2
        rw [← hm2]
      · exact absurd hm (by simp)
    · exact absurd hm (by simp)

/-- every object the Note-fallback stage passes on has no context. -/
theorem preObject_context_none {env : ParseEnv} {m : IMessage} {text : String} {o : ASObject}
    (hp : Parser.preObject env m text = some o) : o.context = none := by
  simp only [Parser.preObject] at hp
  split at hp
  · injection hp with hp2
    rw [← hp2]
    rfl
  · exact mediaObject_context_none hp

/-- context field of the final object: the interactive_message callback
context exactly for the interactive_message subtype. -/
theorem finalObject_context {env : ParseEnv} {m : IMessage} {text : String} {o : ASObject}
    (ho : Parser.finalObject env m text = some o) :
    o.context = (if m.subtype = some "interactive_message"
                 then some (Parser.callbackContext m) else none) := by
  simp only [Parser.finalObject] at ho
  rcases hp : Parser.preObject env m text with _ | y <;> rw [hp] at ho
  · simp at ho
  · by_cases hs : m.subtype = some "interactive_message"
    · simp only [hs, Option.isSome_some, Bool.true_and, decide_True, if_true,
        Option.map_some'] at ho
      injection ho with ho2
      rw [if_pos hs, ← ho2]
    · simp only [hs, decide_False, Bool.and_false, Bool.false_eq_true, if_false] at ho
      injection ho with ho2
      rw [if_neg hs, ← ho2]
      exact preObject_context_none hp

/-- Claim C6: for a normalized message of subtype interactive_message,
every object Parser.parse produces carries the callback context built
from callback_id and response_url; for every other subtype the object
carries no context. -/
theorem claimC6 (p : Parser) (env : ParseEnv) (m : IMessage) (as : ActivityStream)
    (h : Parser.parse p env (some m) = some as) :
    (m.subtype = some "interactive_message" →
      ∀ o, as.object = some o →
        o.context = some
          { content := jsTemplate m.callback_id ++ "#" ++ jsTemplate m.response_url
          , name := "interactive_message_callback"
          , type := "Object" }) ∧
    (m.subtype ≠ some "interactive_message" →
      ∀ o, as.object = some o → o.context = none) := by
  obtain rfl := parse_some_eq h
  constructor
  · intro hsub o ho
    rw [finalObject_context ho, if_pos hsub]
    rfl
  · intro hsub o ho
    rw [finalObject_context ho, if_neg hsub]

/-- sample interactive message with callback data. -/
def sampleMsgInteractive : IMessage :=
  { text := some "hello", content := none, user := none, channel := none, file := none
  , subtype := some "interactive_message", eventID := none, thread_ts := none
  , ts := some "1500.25", callback_id := some "cb1"
  , response_url := some "https://cb.example/r" }

/-- object Parser.parse produces for sampleMsgInteractive. -/
def sampleInteractiveObj : ASObject :=
  { id := some "1500.25", type := some "Note", content := some "hello"
  , mediaType := none, name := none, url := none, preview := none
  , context := some
      { content := "cb1#https://cb.example/r"
      , name := "interactive_message_callback", type := "Object" } }

/-- activity stream Parser.parse produces for sampleMsgInteractive. -/
def sampleInteractiveStream : ActivityStream :=
  { atContext := "https://www.w3.org/ns/activitystreams"
  , generator := { id := "sid-1", name := "slack", type := "Service" }
  , published := some 1500
  , type := "Create"
  , actor := some { id := none, name := none, type := "Person" }
  , target := some { id := none, name := none, type := "Group" }
  , object := some sampleInteractiveObj }

/-- Claim C6 instantiated on sampleMsgInteractive. -/
theorem claimC6_witness :
    sampleInteractiveObj.context = some
      { content := jsTemplate sampleMsgInteractive.callback_id ++ "#" ++
          jsTemplate sampleMsgInteractive.response_url
      , name := "interactive_message_callback"
      , type := "Object" } :=
  (claimC6 sampleParser sampleEnvA sampleMsgInteractive sampleInteractiveStream
      (by decide)).1 rfl sampleInteractiveObj (by decide)

/-- truthiness of an absent string. -/
@[simp] theorem strTruthy_none : strTruthy none = false := rfl

/-- URL branch of the first then-step of Parser.parse. -/
theorem mediaObject_url (env : ParseEnv) (m : IMessage) (text : String)
    (hu : isUrl (stripEnds text) = true) :
    Parser.mediaObject env m text = some
      { id := some (jsOrStr m.eventID env.freshId)
      , type :=
          if strStartsWith (env.fileInfoMime (stripEnds text)) "image/" then some "Image"
          else if strStartsWith (env.fileInfoMime (stripEnds text)) "video/" then some "Video"
          else none
      , content := none
      , mediaType := some (env.fileInfoMime (stripEnds text))
      , name := none
      , url := some (stripEnds text)
      , preview := none
      , context := none } := by
  simp [Parser.mediaObject, hu]

/-- file-attachment branch of the first then-step of Parser.parse. -/
theorem mediaObject_file (env : ParseEnv) (m : IMessage) (text : String) (f : SlackFile)
    (hu : isUrl (stripEnds text) = false) (hmf : m.file = some f)
    (him : (strStartsWith f.mimetype "image" || strStartsWith f.mimetype "video") = true) :
    Parser.mediaObject env m text = some
      { id := some (msgObjectId m env)
      , type := some (if strStartsWith f.mimetype "video" then "Video" else "Image")
      , content := some
          (match f.initial_comment with
           | InitialComment.array c => jsOrStr c ""
           | InitialComment.single c => jsOrStr c "")
      , mediaType := some f.mimetype
      , name := f.name
      , url := f.permalink_public
      , preview := if strTruthy f.thumb_1024 then f.thumb_1024 else none
      , context := none } := by
  simp only [Parser.mediaObject, hu, Bool.false_eq_true, if_false, hmf, Parser.parseFile,
    him, if_true]
  cases htb : strTruthy f.thumb_1024 <;> simp [htb]

/-- the first then-step produces no object when the stripped text is not
a URL and no attachment with an image or video mimetype is present. -/
theorem mediaObject_none_of (env : ParseEnv) (m : IMessage) (text : String)
    (hu : isUrl (stripEnds text) = false)
    (hf : ∀ f, m.file = some f →
      (strStartsWith f.mimetype "image" || strStartsWith f.mimetype "video") = false) :
    Parser.mediaObject env m text = none := by
  simp only [Parser.mediaObject, hu, Bool.false_eq_true, if_false]
  cases hmf : m.file with
  | none => rfl
  | some f => simp [Parser.parseFile, hf f hmf]

/-- an object produced by the first then-step passes the fallback stage
unchanged. -/
theorem preObject_of_media_some (env : ParseEnv) (m : IMessage) (text : String) {o : ASObject}
    (hm : Parser.mediaObject env m text = some o) :
    Parser.preObject env m text = some o := by
  simp [Parser.preObject, hm]

/-- the context stage either passes the object on unchanged or changes
only its context field. -/
theorem finalObject_of_pre_some (env : ParseEnv) (m : IMessage) (text : String) {o : ASObject}
    (hp : Parser.preObject env m text = some o) :
    Parser.finalObject env m text = some o ∨
    Parser.finalObject env m text =
      some { o with context := some (Parser.callbackContext m) } := by
  simp only [Parser.finalObject, hp]
  by_cases hs : m.subtype = some "interactive_message"
  · right
    simp [hs]
  · left
    simp [hs]

/-- Note fallback of the second then-step. -/
theorem preObject_note (env : ParseEnv) (m : IMessage) (text : String)
    (hm : Parser.mediaObject env m text = none) (hc : isEmptyOptStr m.content = false) :
    Parser.preObject env m text = some (Parser.noteObject env m text) := by
  simp [Parser.preObject, hm, hc]

/-- with Ramda-empty content and no media object, no object is set. -/
theorem preObject_none (env : ParseEnv) (m : IMessage) (text : String)
    (hm : Parser.mediaObject env m text = none) (hc : isEmptyOptStr m.content = true) :
    Parser.preObject env m text = none := by
  simp [Parser.preObject, hm, hc]

/-- the context stage passes a missing object through. -/
theorem finalObject_of_pre_none (env : ParseEnv) (m : IMessage) (text : String)
    (hp : Parser.preObject env m text = none) :
    Parser.finalObject env m text = none := by
  simp [Parser.finalObject, hp]

/-- sample message with text but an explicitly empty content field. -/
def sampleMsgEmptyContent : IMessage :=
  { text := some "hi", content := some "", user := none, channel := none, file := none
  , subtype := none, eventID := none, thread_ts := none, ts := none
  , callback_id := none, response_url := none }

/-- Claim C5 as stated fails on the code: for this message the stripped
text is not a URL and no file attachment is present, yet Parser.parse
produces an activity stream with no object at all instead of a Note,
because the Note fallback is guarded by Ramda isEmpty on the content
field and this content is the empty string. -/
theorem claimC5_counterexample :
    isUrl (stripEnds "hi") = false ∧
    sampleMsgEmptyContent.file = none ∧
    (Parser.parse sampleParser sampleEnvA (some sampleMsgEmptyContent)).map
      ActivityStream.object = some none := by decide

/-- Claim C5 amended: the type-dependent extraction is as claimed for
the URL and file-attachment branches, and the Note fallback fires
exactly when the normalized content field is not Ramda-empty; with an
explicitly empty content field no object is produced. -/
theorem claimC5 (p : Parser) (env : ParseEnv) (m : IMessage) (as : ActivityStream)
    (h : Parser.parse p env (some m) = some as) :
    (isUrl (stripEnds (m.text.getD "")) = true →
      as.object.map (fun o => (o.url, o.mediaType)) =
        some (some (stripEnds (m.text.getD "")),
          some (env.fileInfoMime (stripEnds (m.text.getD "")))) ∧
      (strStartsWith (env.fileInfoMime (stripEnds (m.text.getD ""))) "image/" = true →
        as.object.map ASObject.type = some (some "Image")) ∧
      (strStartsWith (env.fileInfoMime (stripEnds (m.text.getD ""))) "image/" = false →
        strStartsWith (env.fileInfoMime (stripEnds (m.text.getD ""))) "video/" = true →
        as.object.map ASObject.type = some (some "Video"))) ∧
    (isUrl (stripEnds (m.text.getD "")) = false →
      ∀ f, m.file = some f →
        (strStartsWith f.mimetype "image" || strStartsWith f.mimetype "video") = true →
        as.object.map (fun o => (o.mediaType, o.name, o.url)) =
          some (some f.mimetype, f.name, f.permalink_public) ∧
        (strTruthy f.thumb_1024 = true →
          as.object.map ASObject.preview = some f.thumb_1024)) ∧
    (isUrl (stripEnds (m.text.getD "")) = false →
      (∀ f, m.file = some f →
        (strStartsWith f.mimetype "image" || strStartsWith f.mimetype "video") = false) →
      (isEmptyOptStr m.content = false →
        as.object.map (fun o => (o.type, o.content)) =
          some (some "Note", some (m.text.getD ""))) ∧
      (isEmptyOptStr m.content = true → as.object = none)) := by
  have hobj : as.object = Parser.finalObject env m (m.text.getD "") := by
    rw [parse_some_eq h]
  rw [hobj]
  refine ⟨?_, ?_, ?_⟩
  · intro hu
    rcases finalObject_of_pre_some env m (m.text.getD "")
        (preObject_of_media_some env m (m.text.getD "")
          (mediaObject_url env m (m.text.getD "") hu)) with he | he <;>
      rw [he] <;>
      exact ⟨by simp, fun hi => by simp [hi], fun hni hv => by simp [hni, hv]⟩
  · intro hu f hmf him
    rcases finalObject_of_pre_some env m (m.text.getD "")
        (preObject_of_media_some env m (m.text.getD "")
          (mediaObject_file env m (m.text.getD "") f hu hmf him)) with he | he <;>
      rw [he] <;>
      exact ⟨by simp, fun ht => by simp [ht]⟩
  · intro hu hf
    have hm := mediaObject_none_of env m (m.text.getD "") hu hf
    refine ⟨?_, ?_⟩
    · intro hc
      rcases finalObject_of_pre_some env m (m.text.getD "")
          (preObject_note env m (m.text.getD "") hm hc) with he | he <;>
        rw [he] <;> simp [Parser.noteObject]
    · intro hc
      rw [finalObject_of_pre_none env m (m.text.getD "")
        (preObject_none env m (m.text.getD "") hm hc)]

/-- sample image attachment. -/
def sampleFile : SlackFile :=
  { mimetype := "image/png", name := some "pic.png"
  , permalink_public := some "https://files.example/pic"
  , thumb_1024 := some "https://files.example/thumb"
  , initial_comment := InitialComment.single (some "nice") }

/-- sample message carrying the image attachment. -/
def sampleMsgFile : IMessage :=
  { text := some "check this", content := none, user := none, channel := none
  , file := some sampleFile, subtype := none, eventID := none, thread_ts := none
  , ts := some "1600.10", callback_id := none, response_url := none }

/-- activity stream Parser.parse produces for sampleMsgFile. -/
def sampleFileStream : ActivityStream :=
  { atContext := "https://www.w3.org/ns/activitystreams"
  , generator := { id := "sid-1", name := "slack", type := "Service" }
  , published := some 1600
  , type := "Create"
  , actor := some { id := none, name := none, type := "Person" }
  , target := some { id := none, name := none, type := "Group" }
  , object := some
      { id := some "1600.10", type := some "Image", content := some "nice"
      , mediaType := some "image/png", name := some "pic.png"
      , url := some "https://files.example/pic"
      , preview := some "https://files.example/thumb", context := none } }

/-- Claim C5 amended, instantiated on the file-attachment branch for
sampleMsgFile. -/
theorem claimC5_witness :
    sampleFileStream.object.map (fun o => (o.mediaType, o.name, o.url)) =
      some (some sampleFile.mimetype, sampleFile.name, sampleFile.permalink_public) ∧
    (strTruthy sampleFile.thumb_1024 = true →
      sampleFileStream.object.map ASObject.preview = some sampleFile.thumb_1024) :=
  (claimC5 sampleParser sampleEnvA sampleMsgFile sampleFileStream (by decide)).2.1
    (by decide) sampleFile rfl (by decide)

/-- Claim C3: Parser.validate resolves to null exactly when the
null-cleaned event is missing or empty, lacks a truthy type field, or
fails the activity schema validation; in every other case it resolves to
the event with its null fields removed, for any schema checker. -/
theorem claimC3 (schemaOk : JValue → Bool) (event : JValue) :
    (Parser.validate schemaOk event = none ↔
      (cleanNulls event = JValue.jnull ∨ isEmptyJ (cleanNulls event) = true ∨
       jsTruthyJ (getField (cleanNulls event) "type") = false ∨
       schemaOk (cleanNulls event) = false)) ∧
    (Parser.validate schemaOk event = none ∨
     Parser.validate schemaOk event = some (cleanNulls event)) := by
  simp only [Parser.validate]
  rcases hP : cleanNulls event with _ | b | n | s | xs | fs
  · simp [jsTruthyJ, isEmptyJ, getField]
  · cases b <;> simp [jsTruthyJ, isEmptyJ, getField]
  · by_cases hn : n = 0 <;> simp [jsTruthyJ, isEmptyJ, getField, hn]
  · by_cases hs : strIsEmpty s = true <;> simp [jsTruthyJ, isEmptyJ, getField, hs]
  · by_cases hx : xs.isEmpty <;> simp [jsTruthyJ, isEmptyJ, getField, hx]
  · by_cases hx : fs.isEmpty
    · simp [jsTruthyJ, isEmptyJ, hx]
    · rcases hT : getField (JValue.jobj fs) "type" with _ | tb | tn | ts | txs | tfs
      · simp [jsTruthyJ, isEmptyJ, hx]
      · cases tb <;> by_cases hsch : schemaOk (JValue.jobj fs) <;>
          simp [jsTruthyJ, isEmptyJ, hx, hsch]
      · by_cases hn0 : tn = 0 <;> by_cases hsch : schemaOk (JValue.jobj fs) <;>
          simp [jsTruthyJ, isEmptyJ, hx, hn0, hsch]
      · by_cases hse : strIsEmpty ts = true <;> by_cases hsch : schemaOk (JValue.jobj fs) <;>
          simp [jsTruthyJ, isEmptyJ, hx, hse, hsch]
      · by_cases hsch : schemaOk (JValue.jobj fs) <;> simp [jsTruthyJ, isEmptyJ, hx, hsch]
      · by_cases hsch : schemaOk (JValue.jobj fs) <;> simp [jsTruthyJ, isEmptyJ, hx, hsch]

end Slack

namespace Kik

/-- Claim C2: for every incoming message, the middleware Adapter.listen
installs emits to its observer only after normalize, parse and validate
have run in that order, and it emits nothing when validate resolves to
null. -/
theorem claimC2 {α β γ δ υ : Type} (normalize : α → υ → β) (parse : β → γ)
    (validate : γ → Option δ) (incoming : α) (userInfo : υ) :
    (validate (parse (normalize incoming userInfo)) = none →
      ∀ d, ListenStep.emit d ∉ listenTrace normalize parse validate incoming userInfo) ∧
    (∀ d, ListenStep.emit d ∈ listenTrace normalize parse validate incoming userInfo →
      validate (parse (normalize incoming userInfo)) = some d ∧
      (listenTrace normalize parse validate incoming userInfo).get? 0 =
        some (ListenStep.normalizeCall incoming (normalize incoming userInfo)) ∧
      (listenTrace normalize parse validate incoming userInfo).get? 1 =
        some (ListenStep.parseCall (normalize incoming userInfo)
          (parse (normalize incoming userInfo))) ∧
      (listenTrace normalize parse validate incoming userInfo).get? 2 =
        some (ListenStep.validateCall (parse (normalize incoming userInfo))
          (validate (parse (normalize incoming userInfo)))) ∧
      (listenTrace normalize parse validate incoming userInfo).get? 3 =
        some (ListenStep.emit d)) := by
  constructor
  · intro hv d hd
    simp [listenTrace, hv] at hd
  · intro d hd
    cases hv : validate (parse (normalize incoming userInfo)) with
    | none => simp [listenTrace, hv] at hd
    | some d0 =>
      have hdd : d = d0 := by
        simp only [listenTrace, hv, List.mem_append, List.mem_cons, List.not_mem_nil,
          or_false, List.mem_singleton] at hd
        rcases hd with ((hd | hd) | hd) | hd <;>
          first
            | exact ListenStep.emit.inj hd
            | exact absurd hd (by simp)
      subst hdd
      refine ⟨by simp [hv], ?_, ?_, ?_, ?_⟩ <;> simp [listenTrace, hv]

/-- Claim C2 instantiated on a concrete pipeline whose validate resolves
to null: nothing is emitted. -/
theorem claimC2_witness :
    ListenStep.emit 7 ∉
      listenTrace (fun (a : Nat) (_ : Nat) => a) (fun b => b + 1)
        (fun _ => (none : Option Nat)) 0 0 :=
  (claimC2 (fun a _ => a) (fun b => b + 1) (fun _ => none) 0 0).1 rfl 7

/-- recogniser for the SDK send action. -/
def SendAction.isSdkSend : SendAction → Bool
  | SendAction.sdkSend _ _ => true
  | _ => false

/-- Claim C7: Adapter.send runs the send schema validation first, and
resolves sent after an SDK send call for Note, Image and Video objects;
every other object type is rejected with the supported-types error and
no SDK send call at all, and a schema failure also rejects before any
SDK send call. -/
theorem claimC7 (a : Adapter) (schemaOk : SendData → Bool) (data : SendData) :
    ((Adapter.send a schemaOk data).1.get? 0 = some SendAction.schemaCheck) ∧
    (schemaOk data = false →
      (Adapter.send a schemaOk data).1 = [SendAction.schemaCheck] ∧
      (Adapter.send a schemaOk data).1.any SendAction.isSdkSend = false) ∧
    (schemaOk data = true →
      ((data.object.bind fun o => o.type) = some "Note" ∨
        (data.object.bind fun o => o.type) = some "Image" ∨
        (data.object.bind fun o => o.type) = some "Video" →
        (Adapter.send a schemaOk data).2 =
          Except.ok { type := "sent", serviceID := a.serviceID } ∧
        (Adapter.send a schemaOk data).1.any SendAction.isSdkSend = true) ∧
      ((data.object.bind fun o => o.type) ≠ some "Note" →
        (data.object.bind fun o => o.type) ≠ some "Image" →
        (data.object.bind fun o => o.type) ≠ some "Video" →
        (Adapter.send a schemaOk data).2 =
          Except.error "Only Note, Image, and Video are supported." ∧
        (Adapter.send a schemaOk data).1.any SendAction.isSdkSend = false)) := by
  refine ⟨?_, ?_, ?_⟩
  · by_cases hs : schemaOk data
    · simp only [Adapter.send, hs]
      split
      · simp_all
      · split <;> simp
    · simp [Adapter.send, hs]
  · intro hs
    simp [Adapter.send, hs, SendAction.isSdkSend]
  · intro hs
    constructor
    · intro hty
      rcases hty with h | h | h <;>
        simp [Adapter.send, hs, h, SendAction.isSdkSend]
    · intro hn hi hv
      simp [Adapter.send, hs, hn, hi, hv, SendAction.isSdkSend]

/-- sample adapter state after a successful connect. -/
def sampleConnectedAdapter : Adapter :=
  { serviceID := "sid-k", logLevel := "info", token := some "tok", username := "SMS"
  , webhookURL := "https://hooks.example/kik/", hasWebhookServer := false
  , connected := true, hasSession := true, sessionsCreated := 1, routerUses := 1
  , webhookListens := 0, webhookCloses := 0, routerId := 7 }

/-- sample send data with a Note object. -/
def sampleSendNote : SendData :=
  { «to» := some { id := some "user-1", name := none }
  , object := some
      { type := some "Note", content := some "hi", url := none, name := none
      , preview := none, attachment := none } }

/-- Claim C7 instantiated on a Note object with a passing schema check. -/
theorem claimC7_witness :
    (Adapter.send sampleConnectedAdapter (fun _ => true) sampleSendNote).2 =
      Except.ok { type := "sent", serviceID := sampleConnectedAdapter.serviceID } ∧
    (Adapter.send sampleConnectedAdapter (fun _ => true) sampleSendNote).1.any
      SendAction.isSdkSend = true :=
  ((claimC7 sampleConnectedAdapter (fun _ => true) sampleSendNote).2.2 rfl).1 (Or.inl rfl)

/-- one lifecycle call keeps a set connected flag set. -/
theorem runOp_connected (op : AdapterOp) (a : Adapter) (ha : a.connected = true) :
    (Adapter.runOp op a).connected = true := by
  cases op with
  | connectOp => simp [Adapter.runOp, Adapter.connect, ha]
  | disconnectOp => rfl

/-- Claim C8: disconnect assigns true, not false, to the connected flag;
once the flag is set no sequence of lifecycle calls clears it, every
successful connect leaves it set, and a connect on an already connected
adapter returns connected immediately with the state untouched, so no
new session is created and no webhook route is re-registered. -/
theorem claimC8 :
    (∀ a : Adapter, (Adapter.disconnect a).connected = true) ∧
    (∀ a : Adapter, a.connected = true →
      Adapter.connect a = (a, Except.ok { type := "connected", serviceID := a.serviceID })) ∧
    (∀ (a : Adapter) (ops : List AdapterOp), a.connected = true →
      (Adapter.runOps ops a).connected = true) ∧
    (∀ (a a2 : Adapter) (r : ConnectInfo),
      Adapter.connect a = (a2, Except.ok r) → a2.connected = true) := by
  refine ⟨fun a => rfl, fun a ha => by simp [Adapter.connect, ha], ?_, ?_⟩
  · intro a ops
    induction ops generalizing a with
    | nil => exact fun ha => ha
    | cons op rest ih =>
      intro ha
      exact ih (Adapter.runOp op a) (runOp_connected op a ha)
  · intro a a2 r h
    have h1 := congrArg Prod.fst h
    by_cases ha : a.connected = true
    · simp only [Adapter.connect, ha, if_true] at h1
      rw [← h1]
      exact ha
    · have haf : a.connected = false := by
        revert ha
        cases a.connected <;> simp
      simp only [Adapter.connect, haf, Bool.false_eq_true, if_false] at h h1
      split at h
      · exact absurd (congrArg Prod.snd h) (by simp)
      · have h2 := congrArg Prod.fst h
        dsimp only at h2
        rw [← h2]

/-- Claim C8 instantiated: connecting the already connected sample
adapter returns the connected result and leaves the state unchanged. -/
theorem claimC8_witness :
    Adapter.connect sampleConnectedAdapter =
      (sampleConnectedAdapter,
        Except.ok { type := "connected", serviceID := sampleConnectedAdapter.serviceID }) :=
  claimC8.2.1 sampleConnectedAdapter rfl

/-- the Adapter constructor never throws: on every options object it
returns the adapter record with the defaulted fields, because the || null
defaulting turns an empty-string token into null before the empty-string
check runs. -/
theorem construct_ok (freshId : String) (routerId : Nat) (obj : IAdapterOptions) :
    Adapter.construct freshId routerId obj = Except.ok
      { serviceID := jsOrStr obj.serviceID freshId
      , logLevel := jsOrStr obj.logLevel "info"
      , token := if strTruthy obj.token then obj.token else none
      , username := jsOrStr obj.username "SMS"
      , webhookURL := ensureTrailingSlash obj.webhookURL
      , hasWebhookServer := obj.http.isSome
      , connected := false, hasSession := false, sessionsCreated := 0
      , routerUses := 0, webhookListens := 0, webhookCloses := 0
      , routerId := routerId } := by
  simp only [Adapter.construct]
  rcases ht : obj.token with _ | s
  · simp
  · by_cases hse : strIsEmpty s = true
    · simp [strTruthy, hse]
    · have hsf : strIsEmpty s = false := by
        revert hse
        cases strIsEmpty s <;> simp
      have hz : s ≠ "" := by
        intro hzz
        rw [hzz] at hsf
        exact absurd hsf (by simp [strIsEmpty])
      simp [strTruthy, hsf, hz]

/-- Claim C9: the Token should exist. error of the Adapter constructor is
unreachable: the || null defaulting turns an empty-string token into null
before the empty-string check runs, so no options object makes the
constructor throw it. -/
theorem claimC9 (freshId : String) (routerId : Nat) (obj : IAdapterOptions) :
    Adapter.construct freshId routerId obj ≠ Except.error "Token should exist." := by
  rw [construct_ok]
  exact fun hc => Except.noConfusion hc

/-- Claim C10: getRouter returns null exactly when the adapter was
constructed with http options, which is exactly when an internal webhook
server exists, and returns the internal express router exactly when no
webhook server was created. -/
theorem claimC10 (freshId : String) (routerId : Nat) (obj : IAdapterOptions) (a : Adapter)
    (h : Adapter.construct freshId routerId obj = Except.ok a) :
    (Adapter.getRouter a = none ↔ obj.http.isSome = true) ∧
    (Adapter.getRouter a = some a.routerId ↔ obj.http.isSome = false) := by
  rw [construct_ok] at h
  injection h with h2
  rw [← h2]
  cases hh : obj.http with
  | none => simp [Adapter.getRouter, hh]
  | some u => simp [Adapter.getRouter, hh]

/-- Claim C9 instantiated on concrete options. -/
theorem claimC9_witness :
    Adapter.construct "u-k2" 9
      { serviceID := none, logLevel := none, token := some "", username := none
      , webhookURL := "https://hooks.example/kik", http := none } ≠
      Except.error "Token should exist." :=
  claimC9 "u-k2" 9
    { serviceID := none, logLevel := none, token := some "", username := none
    , webhookURL := "https://hooks.example/kik", http := none }

/-- sample constructor options with http options present. -/
def sampleOptionsHttp : IAdapterOptions :=
  { serviceID := some "sid-k", logLevel := none, token := some "tok", username := none
  , webhookURL := "https://hooks.example/kik", http := some () }

/-- adapter the constructor builds from sampleOptionsHttp. -/
def sampleAdapterHttp : Adapter :=
  { serviceID := "sid-k", logLevel := "info", token := some "tok", username := "SMS"
  , webhookURL := "https://hooks.example/kik/", hasWebhookServer := true
  , connected := false, hasSession := false, sessionsCreated := 0, routerUses := 0
  , webhookListens := 0, webhookCloses := 0, routerId := 7 }

/-- Claim C10 instantiated on sampleOptionsHttp. -/
theorem claimC10_witness :
    (Adapter.getRouter sampleAdapterHttp = none ↔ sampleOptionsHttp.http.isSome = true) ∧
    (Adapter.getRouter sampleAdapterHttp = some sampleAdapterHttp.routerId ↔
      sampleOptionsHttp.http.isSome = false) :=
  claimC10 "u-k" 7 sampleOptionsHttp sampleAdapterHttp (by rfl)

end Kik

end Broid
